import Mathlib

/-!
Verification development for the `wxpay/payment` package: a client-side
adapter for an XML-based payment gateway.  The definitions below are a
shallow embedding of `src/wxpay/payment/payment.go`; external collaborators
(`util.SignByMD5`, `util.FetchIP`, `util.RandomString`, the HTTP transport,
`encoding/xml` and `etree`) live outside the repository and are either
modelled from the specification or passed in as parameters.
-/

namespace WxPay

/-! ### MD5 digest, modelled from the spec -/

/-- Modelled from the spec: `util.SignByMD5`'s underlying digest is MD5
(the `util` package is an external collaborator, not part of this
repository).  32-bit truncation used throughout the MD5 round function. -/
def u32 (n : Nat) : Nat := n % 4294967296

/-- Left-rotation of a 32-bit word by `s` bits. -/
def rotl32 (x s : Nat) : Nat :=
  (x % 2 ^ (32 - s)) * 2 ^ s + x / 2 ^ (32 - s)

/-- Bitwise complement of a 32-bit word. -/
def not32 (x : Nat) : Nat := Nat.xor x 4294967295

/-- The 64 MD5 sine-derived round constants. -/
def md5K : List Nat :=
  [0xd76aa478, 0xe8c7b756, 0x242070db, 0xc1bdceee,
   0xf57c0faf, 0x4787c62a, 0xa8304613, 0xfd469501,
   0x698098d8, 0x8b44f7af, 0xffff5bb1, 0x895cd7be,
   0x6b901122, 0xfd987193, 0xa679438e, 0x49b40821,
   0xf61e2562, 0xc040b340, 0x265e5a51, 0xe9b6c7aa,
   0xd62f105d, 0x02441453, 0xd8a1e681, 0xe7d3fbc8,
   0x21e1cde6, 0xc33707d6, 0xf4d50d87, 0x455a14ed,
   0xa9e3e905, 0xfcefa3f8, 0x676f02d9, 0x8d2a4c8a,
   0xfffa3942, 0x8771f681, 0x6d9d6122, 0xfde5380c,
   0xa4beea44, 0x4bdecfa9, 0xf6bb4b60, 0xbebfbc70,
   0x289b7ec6, 0xeaa127fa, 0xd4ef3085, 0x04881d05,
   0xd9d4d039, 0xe6db99e5, 0x1fa27cf8, 0xc4ac5665,
   0xf4292244, 0x432aff97, 0xab9423a7, 0xfc93a039,
   0x655b59c3, 0x8f0ccc92, 0xffeff47d, 0x85845dd1,
   0x6fa87e4f, 0xfe2ce6e0, 0xa3014314, 0x4e0811a1,
   0xf7537e82, 0xbd3af235, 0x2ad7d2bb, 0xeb86d391]

/-- The 64 MD5 per-round shift amounts. -/
def md5S : List Nat :=
  [7, 12, 17, 22, 7, 12, 17, 22, 7, 12, 17, 22, 7, 12, 17, 22,
   5, 9, 14, 20, 5, 9, 14, 20, 5, 9, 14, 20, 5, 9, 14, 20,
   4, 11, 16, 23, 4, 11, 16, 23, 4, 11, 16, 23, 4, 11, 16, 23,
   6, 10, 15, 21, 6, 10, 15, 21, 6, 10, 15, 21, 6, 10, 15, 21]

/-- The nonlinear mixing function of round `i`, together with the index of
the message word consumed in that round. -/
def md5FG (b c d i : Nat) : Nat × Nat :=
  if i < 16 then
    (Nat.lor (Nat.land b c) (Nat.land (not32 b) d), i)
  else if i < 32 then
    (Nat.lor (Nat.land d b) (Nat.land (not32 d) c), (5 * i + 1) % 16)
  else if i < 48 then
    (Nat.xor (Nat.xor b c) d, (3 * i + 5) % 16)
  else
    (Nat.xor c (Nat.lor b (not32 d)), (7 * i) % 16)

/-- One MD5 round step on the state `(a, b, c, d)`. -/
def md5Step (m : List Nat) (st : Nat × Nat × Nat × Nat) (i : Nat) :
    Nat × Nat × Nat × Nat :=
  let (a, b, c, d) := st
  let (f, g) := md5FG b c d i
  let f := u32 (f + a + md5K.getD i 0 + m.getD g 0)
  (d, u32 (b + rotl32 f (md5S.getD i 0)), b, c)

/-- Split a 64-byte block into sixteen little-endian 32-bit words. -/
def md5Words (block : List Nat) : List Nat :=
  (List.range 16).map fun j =>
    block.getD (4 * j) 0 + 256 * block.getD (4 * j + 1) 0 +
      65536 * block.getD (4 * j + 2) 0 + 16777216 * block.getD (4 * j + 3) 0

/-- Process one 64-byte block, updating the running digest state. -/
def md5Block (st : Nat × Nat × Nat × Nat) (block : List Nat) :
    Nat × Nat × Nat × Nat :=
  let (a0, b0, c0, d0) := st
  let m := md5Words block
  let (a, b, c, d) := (List.range 64).foldl (md5Step m) (a0, b0, c0, d0)
  (u32 (a0 + a), u32 (b0 + b), u32 (c0 + c), u32 (d0 + d))

/-- MD5 padding: a `0x80` byte, zeros up to 56 mod 64, then the bit length
as a 64-bit little-endian integer. -/
def md5Pad (msg : List Nat) : List Nat :=
  let n := msg.length
  let zeros := (56 + 64 - (n + 1) % 64) % 64
  msg ++ [0x80] ++ List.replicate zeros 0 ++
    ((List.range 8).map fun i => 8 * n / 2 ^ (8 * i) % 256)

/-- Chop a list into chunks of 64 bytes. -/
def chunks64 : List Nat → List (List Nat)
  | [] => []
  | a :: l => (a :: l).take 64 :: chunks64 ((a :: l).drop 64)
  termination_by l => l.length
  decreasing_by simp [List.length_drop]; omega

/-- The full MD5 digest of a byte sequence, as the final `(A, B, C, D)`
state. -/
def md5Digest (msg : List Nat) : Nat × Nat × Nat × Nat :=
  (chunks64 (md5Pad msg)).foldl md5Block
    (0x67452301, 0xefcdab89, 0x98badcfe, 0x10325476)

/-- One byte as two uppercase hexadecimal characters. -/
def hexByteU (b : Nat) : String :=
  let dig := fun n => "0123456789ABCDEF".toList.getD n '0'
  String.mk [dig (b / 16), dig (b % 16)]

/-- The four bytes of a 32-bit word, little-endian, as uppercase hex. -/
def hexWordLE (w : Nat) : String :=
  hexByteU (w % 256) ++ hexByteU (w / 256 % 256) ++
    hexByteU (w / 65536 % 256) ++ hexByteU (w / 16777216 % 256)

/-- The UTF-8 bytes of a string. -/
def stringBytes (s : String) : List Nat :=
  s.toUTF8.toList.map fun b => b.toNat

/-- MD5 of a string, rendered as uppercase hexadecimal. -/
def md5HexUpper (s : String) : String :=
  let (a, b, c, d) := md5Digest (stringBytes s)
  hexWordLE a ++ hexWordLE b ++ hexWordLE c ++ hexWordLE d

/-! ### Canonical signer, modelled from the spec -/

/-- Modelled from the spec: `util.SignByMD5` sorts the field names
lexicographically; field ordering is by the first component only. -/
def sortFields (l : List (String × String)) : List (String × String) :=
  l.insertionSort fun a b => a.1 ≤ b.1

/-- Modelled from the spec: the canonical string is `name=value&` for every
field with a non-empty value, in sorted name order, followed by
`key=<secretKey>`. -/
def canonicalString (l : List (String × String)) (key : String) : String :=
  String.join ((sortFields l).filterMap fun p =>
    if p.2 = "" then none else some (p.1 ++ "=" ++ p.2 ++ "&")) ++
    "key=" ++ key

/-- Modelled from the spec: `util.SignByMD5` digests the canonical string
with MD5 and renders it as uppercase hexadecimal.  The spec's
`SigningError` arises only from a serialization fault in the collaborator,
which has no counterpart in this total model. -/
def SignByMD5 (l : List (String × String)) (key : String) : String :=
  md5HexUpper (canonicalString l key)

/-! ### Order data model (`payment.go` lines 33-66) -/

/-- A Go `time.Time` restricted to the calendar fields that
`Format("20060102150405")` renders.  The zero value is Go's zero time,
January 1 of year 1 at 00:00:00. -/
structure GoTime where
  year : Nat
  month : Nat
  day : Nat
  hour : Nat
  minute : Nat
  second : Nat
deriving DecidableEq, Repr

/-- Go's zero `time.Time`. -/
def GoTime.zero : GoTime := ⟨1, 1, 1, 0, 0, 0⟩

/-- `time.Time.IsZero`. -/
def GoTime.isZero (t : GoTime) : Bool := t = GoTime.zero

/-- Zero-pad a number to two digits, as Go's time formatter does. -/
def pad2 (n : Nat) : String :=
  if n < 10 then "0" ++ toString n else toString n

/-- Zero-pad a year to four digits. -/
def pad4 (n : Nat) : String :=
  if n < 10 then "000" ++ toString n
  else if n < 100 then "00" ++ toString n
  else if n < 1000 then "0" ++ toString n
  else toString n

/-- Go's `t.Format("20060102150405")`: `yyyyMMddHHmmss`. -/
def GoTime.format (t : GoTime) : String :=
  pad4 t.year ++ pad2 t.month ++ pad2 t.day ++
    pad2 t.hour ++ pad2 t.minute ++ pad2 t.second

/-- The exported `Order` struct: the caller-declared order intent. -/
structure Order where
  AppID : String
  MchID : String
  TotalFee : Int
  NotifyURL : String
  OpenID : String
  Body : String
  OutTradeNo : String
  IP : String
  NoCredit : Bool
  StartedAt : GoTime
  ExpiredAt : GoTime
  Tag : String
  Detail : String
  Attach : String
deriving DecidableEq, Repr

/-- The unexported `order` struct: the wire order.  `NoCredit`, `StartedAt`
and `ExpiredAt` here are the string fields that shadow the embedded
`Order` fields of the same name in Go. -/
structure order where
  base : Order
  Sign : String
  NonceStr : String
  TradeType : String
  SignType : String
  NoCredit : String
  StartedAt : String
  ExpiredAt : String
deriving DecidableEq, Repr

/-- The `signData` map built by `prepare` (lines 78-126), as the list of
key/value pairs inserted, with `ip` the resolved terminal IP.  A Go map
holds each key at most once; all keys inserted here are distinct. -/
def signData (o : Order) (nonce ip : String) : List (String × String) :=
  [("appid", o.AppID), ("body", o.Body), ("mch_id", o.MchID),
   ("nonce_str", nonce), ("notify_url", o.NotifyURL), ("openid", o.OpenID),
   ("out_trade_no", o.OutTradeNo), ("total_fee", toString o.TotalFee),
   ("trade_type", "JSAPI"), ("sign_type", "MD5"), ("spbill_create_ip", ip)]
  ++ (if o.StartedAt.isZero then [] else [("time_start", o.StartedAt.format)])
  ++ (if o.ExpiredAt.isZero then [] else [("time_expire", o.ExpiredAt.format)])
  ++ (if o.Attach = "" then [] else [("attach", o.Attach)])
  ++ (if o.Detail = "" then [] else [("detail", o.Detail)])
  ++ (if o.Tag = "" then [] else [("goods_tag", o.Tag)])
  ++ (if o.NoCredit then [("limit_pay", "no_credit")] else [])

/-- `Order.prepare` (lines 69-135).  The collaborators are parameters:
`nonce` stands for `util.RandomString(32)` and `fetchIP` for the outcome
of `util.FetchIP()` (already rendered as a string).  Mirroring Go's
`(order, error)` return, the result pairs the wire order with an optional
error; on the error path the wire order is the partially built value whose
`Sign` field is still empty. -/
def Order.prepare (o : Order) (key nonce : String)
    (fetchIP : Except String String) : order × Option String :=
  let od : order :=
    { base := o, Sign := "", NonceStr := nonce, TradeType := "JSAPI",
      SignType := "MD5", NoCredit := "", StartedAt := "", ExpiredAt := "" }
  match (if o.IP = "" then fetchIP else Except.ok o.IP) with
  | Except.error e => (od, some e)
  | Except.ok ip =>
    let od :=
      { od with
        base := { o with IP := ip },
        StartedAt := if o.StartedAt.isZero then "" else o.StartedAt.format,
        ExpiredAt := if o.ExpiredAt.isZero then "" else o.ExpiredAt.format,
        NoCredit := if o.NoCredit then "no_credit" else "",
        Sign := SignByMD5 (signData o nonce ip) key }
    (od, none)

/-! ### Response envelope and status check (lines 137-172) -/

/-- The unexported `response` struct: the two-tier gateway status
envelope. -/
structure response where
  ReturnCode : String
  ReturnMsg : String
  ResultCode : String
  ErrCode : String
  ErrCodeDes : String
deriving DecidableEq, Repr

/-- `response.Check` (lines 147-157): `some msg` models a non-nil Go
error with message `msg`; `none` models a nil error. -/
def response.Check (res : response) : Option String :=
  if res.ReturnCode ≠ "SUCCESS" then
    some ("交易失败: " ++ res.ReturnMsg)
  else if res.ResultCode ≠ "SUCCESS" then
    some ("发生错误: " ++ res.ErrCodeDes)
  else
    none

/-- The exported `PaidResponse` struct: the user-facing subset of the
unified-order response. -/
structure PaidResponse where
  AppID : String
  MchID : String
  PrePayID : String
  Sign : String
  NonceStr : String
deriving DecidableEq, Repr

/-- The unexported `paidResponse` struct: `response` plus `PaidResponse`. -/
structure paidResponse where
  resp : response
  pres : PaidResponse
deriving DecidableEq, Repr

/-- The tail of `Order.Unify` after the gateway interaction (lines
218-228): the HTTP POST and the XML decoding are external collaborators,
so the function is taken at the already-parsed response.  `Except.error`
models a non-nil returned error, in which case Go's `pres` named return
keeps its zero value. -/
def Unify (res : paidResponse) : Except String PaidResponse :=
  match res.resp.Check with
  | some e => Except.error e
  | none => Except.ok res.pres

/-! ### Client payment parameters (lines 23-31, 174-201) -/

/-- The exported `Params` struct handed to the front-end widget. -/
structure Params where
  Timestamp : String
  NonceStr : String
  SignType : String
  PaySign : String
  Package : String
deriving DecidableEq, Repr

/-- `GetParams` (lines 180-201).  `now` stands for the external clock value
`time.Now().Unix()`.  `Except.error` models the Go `(p, err)` return with a
non-nil error. -/
def GetParams (appID key nonceStr prepayID : String) (now : Int) :
    Except String Params :=
  if nonceStr.utf8ByteSize > 32 then
    Except.error "随机字符串长度为32个字符以下"
  else
    let pkg := "prepay_id=" ++ prepayID
    let ts := toString now
    Except.ok
      { Timestamp := ts, SignType := "MD5", NonceStr := nonceStr,
        Package := pkg,
        PaySign := SignByMD5
          [("appId", appID), ("signType", "MD5"), ("nonceStr", nonceStr),
           ("package", pkg), ("timeStamp", ts)] key }

/-! ### Go integer parsing (`strconv.ParseInt`, base 10, bit size 64) -/

/-- Accumulate a decimal digit string; `none` on the first non-digit. -/
def decDigitsVal (acc : Nat) : List Char → Option Nat
  | [] => some acc
  | c :: cs =>
      if c.isDigit then decDigitsVal (acc * 10 + (c.toNat - 48)) cs
      else none

/-- The digit part of a decimal integer literal: `none` if empty or if any
character is not a digit. -/
def decDigits : List Char → Option Nat
  | [] => none
  | c :: cs => decDigitsVal 0 (c :: cs)

/-- Split off an optional leading sign, Go style: the Bool is true for a
leading minus. -/
def splitSign : List Char → Bool × List Char
  | '-' :: cs => (true, cs)
  | '+' :: cs => (false, cs)
  | cs => (false, cs)

/-- Whether a string is a syntactically valid decimal integer literal
(optional sign, then at least one digit and nothing else). -/
def isDecIntLit (s : String) : Bool :=
  let ds := (splitSign s.toList).2
  !ds.isEmpty && ds.all Char.isDigit

/-- Go's `strconv.ParseInt(s, 10, 64)` as a value/ok pair: on a syntax
error the value is 0, on a range error it is the clamped 64-bit bound;
`ok` is true exactly when Go returns a nil error. -/
def goParseInt64 (s : String) : Int × Bool :=
  let (neg, ds) := splitSign s.toList
  match decDigits ds with
  | none => (0, false)
  | some n =>
    if neg then
      if n > 9223372036854775808 then (-9223372036854775808, false)
      else (-(n : Int), true)
    else
      if n > 9223372036854775807 then (9223372036854775807, false)
      else ((n : Int), true)

/-! ### Inbound notification model (lines 231-351) -/

/-- The inbound callback body, abstracted to the children of the `xml`
root element as (element name, text) pairs.  Both `encoding/xml` and the
`etree` document read the same body, so both read from this list; element
lookup returns the first child with the given name. -/
abbrev XmlDoc := List (String × String)

/-- The text of the first child element with the given name, or `none`
when absent (`etree`'s `SelectElement` returning nil). -/
def selectText (doc : XmlDoc) (name : String) : Option String :=
  doc.lookup name

/-- A string-typed struct field under `encoding/xml`: absent elements
leave the zero value `""`. -/
def strField (doc : XmlDoc) (name : String) : String :=
  (selectText doc name).getD ""

/-- An int-typed struct field under `encoding/xml`: absent elements leave
the zero value 0; a present element whose text is not a valid 64-bit
decimal integer makes `Unmarshal` fail. -/
def intField (doc : XmlDoc) (name : String) : Except String Int :=
  match selectText doc name with
  | none => Except.ok 0
  | some s =>
    match goParseInt64 s with
    | (v, true) => Except.ok v
    | (_, false) => Except.error ("cannot unmarshal " ++ name)

/-- The exported `CouponResponseModel` struct: one coupon line item. -/
structure CouponResponseModel where
  CouponId : String
  CouponFee : Int
deriving DecidableEq, Repr

/-- `NewCouponResponseModel` (lines 337-351), at its only call site's
format strings `coupon_id_%d` / `coupon_fee_%d`.  In Go a missing indexed
element makes `SelectElement` return nil and the `.Text()` call panic;
`none` models that panic.  The `strconv.ParseInt` error on the fee text is
discarded, keeping the value `ParseInt` returned. -/
def NewCouponResponseModel (doc : XmlDoc) (i : Nat) :
    Option CouponResponseModel := do
  let idText ← selectText doc ("coupon_id_" ++ toString i)
  let feeText ← selectText doc ("coupon_fee_" ++ toString i)
  pure { CouponId := idText, CouponFee := (goParseInt64 feeText).1 }

/-- The coupon loop of `HandlePaidNotify` (lines 306-309): items for
indices `0..count-1` in order; `none` if any iteration panics. -/
def extractCoupons (doc : XmlDoc) : Nat → Option (List CouponResponseModel)
  | 0 => some []
  | n + 1 => do
    let l ← extractCoupons doc n
    let m ← NewCouponResponseModel doc n
    pure (l ++ [m])

/-- The exported `PaidNotify` struct (lines 232-257), restricted to its
integer and string fields; the three `float64` fields (settlement, cash
fee, coupon fee totals) are outside this model and no claim mentions
them. -/
structure PaidNotify where
  AppID : String
  MchID : String
  TotalFee : Int
  NonceStr : String
  Sign : String
  SignType : String
  OpenID : String
  TradeType : String
  Bank : String
  FeeType : String
  CashFeeType : String
  CouponCount : Int
  TransactionID : String
  Attach : String
  IsSubscribe : String
  OutTradeNo : String
  Timeend : String
  Coupons : List CouponResponseModel
deriving DecidableEq, Repr

/-- The unexported `paidNotify` struct: `response` plus `PaidNotify`. -/
structure paidNotify where
  resp : response
  ntf : PaidNotify
deriving DecidableEq, Repr

/-- `xml.Unmarshal` of the callback body into `paidNotify`, modelled from
the spec's XML field mapping (`encoding/xml` is an external collaborator):
every tagged string field reads the text of its element, defaulting to
`""`; the two integer fields fail the whole deserialization when present
but unparseable.  `Coupons` carries the tag `xml:"-"` and stays empty. -/
def unmarshalPaidNotify (doc : XmlDoc) : Except String paidNotify := do
  let tf ← intField doc "total_fee"
  let cc ← intField doc "coupon_count"
  Except.ok
    { resp :=
        { ReturnCode := strField doc "return_code",
          ReturnMsg := strField doc "return_msg",
          ResultCode := strField doc "result_code",
          ErrCode := strField doc "err_code",
          ErrCodeDes := strField doc "err_code_des" },
      ntf :=
        { AppID := strField doc "appid", MchID := strField doc "mch_id",
          TotalFee := tf, NonceStr := strField doc "nonce_str",
          Sign := strField doc "sign", SignType := strField doc "sign_type",
          OpenID := strField doc "openid",
          TradeType := strField doc "trade_type",
          Bank := strField doc "bank_type", FeeType := strField doc "fee_type",
          CashFeeType := strField doc "cash_fee_type", CouponCount := cc,
          TransactionID := strField doc "transaction_id",
          Attach := strField doc "attach",
          IsSubscribe := strField doc "is_subscribe",
          OutTradeNo := strField doc "out_trade_no",
          Timeend := strField doc "time_end", Coupons := [] } }

/-- The outcome of a Go function that may also panic. -/
inductive GoResult (α : Type) where
  | panic : GoResult α
  | error (msg : String) : GoResult α
  | ok (a : α) : GoResult α
deriving DecidableEq, Repr

/-- The unexported `replay` struct: the acknowledgement returned to the
gateway. -/
structure replay where
  Code : String
  Msg : String
deriving DecidableEq, Repr

/-- `newReplay` (lines 274-285). -/
def newReplay (ok : Bool) (msg : String) : replay :=
  { Code := if ok then "SUCCESS" else "FAIL", Msg := msg }

/-- The deserialization and coupon-extraction stages of
`HandlePaidNotify` (lines 294-310): unmarshal the body, then, when the
declared coupon count is positive, walk the element tree for the indexed
coupon pairs. -/
def buildNotify (doc : XmlDoc) : GoResult paidNotify :=
  match unmarshalPaidNotify doc with
  | Except.error e => GoResult.error e
  | Except.ok pn =>
    if pn.ntf.CouponCount > 0 then
      match extractCoupons doc pn.ntf.CouponCount.toNat with
      | some l => GoResult.ok { pn with ntf := { pn.ntf with Coupons := l } }
      | none => GoResult.panic
    else
      GoResult.ok pn

/-- `HandlePaidNotify` (lines 288-327).  The HTTP plumbing (body read,
response write, XML marshalling of the reply) is external; the function is
taken at the parsed body and returns the acknowledgement written on
success, the returned error, or a panic.  `f` is the caller's decision
function (named `fuck` in the source). -/
def HandlePaidNotify (doc : XmlDoc) (f : PaidNotify → Bool × String) :
    GoResult replay :=
  match buildNotify doc with
  | GoResult.panic => GoResult.panic
  | GoResult.error e => GoResult.error e
  | GoResult.ok pn =>
    match pn.resp.Check with
    | some e => GoResult.error e
    | none =>
      let (okb, msg) := f pn.ntf
      GoResult.ok (newReplay okb msg)

/-- Rewrite the value of every `sign` element of a callback body, leaving
every other element untouched. -/
def setSign (doc : XmlDoc) (v : String) : XmlDoc :=
  doc.map fun p => if p.1 = "sign" then (p.1, v) else p

/-! ### Claim C2: two-tier status check -/

/-- A zero-value `PaidResponse`, as left by Go on an error path. -/
def PaidResponse.zero : PaidResponse := ⟨"", "", "", "", ""⟩

/-- C2 counterexample: the claim says the business-tier failure carries
`ErrCode` and `ErrCodeDes`, but two responses that differ only in
`ErrCode` produce the very same error, so `ErrCode` is not carried. -/
theorem unify_errCode_not_carried :
    Unify ⟨⟨"SUCCESS", "", "FAIL", "CODE_A", "des"⟩, PaidResponse.zero⟩ =
      Unify ⟨⟨"SUCCESS", "", "FAIL", "CODE_B", "des"⟩, PaidResponse.zero⟩ ∧
    ("CODE_A" : String) ≠ "CODE_B" := by
  exact ⟨rfl, by decide⟩

/-- C2 (amended): the status check evaluates the transport tier first and
the business tier second; a transport failure carries `ReturnMsg` and never
inspects the business-level fields; a business failure carries only
`ErrCodeDes`; on double success `Unify` returns the embedded
`PaidResponse` with no error. -/
theorem unify_two_tier_check (res : paidResponse) :
    (res.resp.ReturnCode ≠ "SUCCESS" →
      Unify res = Except.error ("交易失败: " ++ res.resp.ReturnMsg) ∧
      ∀ rc ec ecd,
        Unify ⟨{ res.resp with ResultCode := rc, ErrCode := ec, ErrCodeDes := ecd }, res.pres⟩ = Unify res) ∧
    (res.resp.ReturnCode = "SUCCESS" → res.resp.ResultCode ≠ "SUCCESS" →
      Unify res = Except.error ("发生错误: " ++ res.resp.ErrCodeDes)) ∧
    (res.resp.ReturnCode = "SUCCESS" → res.resp.ResultCode = "SUCCESS" →
      Unify res = Except.ok res.pres) := by
  refine ⟨fun h1 => ⟨?_, fun rc ec ecd => ?_⟩, fun h1 h2 => ?_, fun h1 h2 => ?_⟩ <;>
    simp [Unify, response.Check, h1, *]

/-- C2 witness: the amended theorem applied at concrete responses. -/
theorem unify_two_tier_check_witness :
    Unify ⟨⟨"FAIL", "bad xml", "SUCCESS", "E", "D"⟩, PaidResponse.zero⟩ =
      Except.error "交易失败: bad xml" ∧
    Unify ⟨⟨"SUCCESS", "", "FAIL", "E", "dup order"⟩, PaidResponse.zero⟩ =
      Except.error "发生错误: dup order" ∧
    Unify ⟨⟨"SUCCESS", "", "SUCCESS", "", ""⟩, ⟨"a", "m", "p", "s", "n"⟩⟩ =
      Except.ok ⟨"a", "m", "p", "s", "n"⟩ :=
  ⟨((unify_two_tier_check _).1 (by decide)).1,
   (unify_two_tier_check _).2.1 rfl (by decide),
   (unify_two_tier_check _).2.2 rfl rfl⟩

/-! ### Claim C7: client parameter generation -/

/-- C7: `GetParams` fails with the invalid-nonce error for every nonce
longer than 32 bytes; for a nonce of at most 32 bytes it succeeds with
`SignType` fixed to `"MD5"`, the package string `"prepay_id=" ++ prepayID`,
the clock value as timestamp, and a signature over exactly the five fields
`appId`, `signType`, `nonceStr`, `package`, `timeStamp`. -/
theorem getParams_spec (appID key nonceStr prepayID : String) (now : Int) :
    (nonceStr.utf8ByteSize > 32 →
      GetParams appID key nonceStr prepayID now =
        Except.error "随机字符串长度为32个字符以下") ∧
    (nonceStr.utf8ByteSize ≤ 32 →
      GetParams appID key nonceStr prepayID now =
        Except.ok
          { Timestamp := toString now, SignType := "MD5",
            NonceStr := nonceStr, Package := "prepay_id=" ++ prepayID,
            PaySign := SignByMD5
              [("appId", appID), ("signType", "MD5"),
               ("nonceStr", nonceStr),
               ("package", "prepay_id=" ++ prepayID),
               ("timeStamp", toString now)] key }) := by
  constructor
  · intro h
    simp [GetParams, h]
  · intro h
    simp [GetParams, Nat.not_lt.mpr h]

/-- C7 witness: the theorem applied to a 33-byte nonce and a short
nonce. -/
theorem getParams_spec_witness :
    GetParams "wx1" "k" "aaaaaaaaaaaaaaaaaaaaaaaaaaaaaaaaa" "pp" 7 =
      Except.error "随机字符串长度为32个字符以下" ∧
    GetParams "wx1" "k" "n1" "pp" 7 =
      Except.ok
        { Timestamp := toString (7 : Int), SignType := "MD5",
          NonceStr := "n1", Package := "prepay_id=" ++ "pp",
          PaySign := SignByMD5
            [("appId", "wx1"), ("signType", "MD5"), ("nonceStr", "n1"),
             ("package", "prepay_id=" ++ "pp"),
             ("timeStamp", toString (7 : Int))] "k" } :=
  ⟨(getParams_spec "wx1" "k" "aaaaaaaaaaaaaaaaaaaaaaaaaaaaaaaaa" "pp" 7).1
      (by decide),
   (getParams_spec "wx1" "k" "n1" "pp" 7).2 (by decide)⟩

/-! ### Claim C3: optional fields of the signed set -/

theorem mem_ite_nil_right {α : Type} {c : Prop} [Decidable c] (x y : α) :
    (x ∈ if c then ([] : List α) else [y]) ↔ ¬c ∧ x = y := by
  split_ifs with h <;> simp [h]

theorem mem_ite_nil_left {α : Type} {c : Prop} [Decidable c] (x y : α) :
    (x ∈ if c then [y] else ([] : List α)) ↔ c ∧ x = y := by
  split_ifs with h <;> simp [h]

/-- C3: the signed field set contains `time_start`/`time_expire` exactly
for a non-zero time (with the `yyyyMMddHHmmss` rendering), `attach`,
`detail` and `goods_tag` exactly for a non-empty string, and `limit_pay`
with the literal value `"no_credit"` exactly when the credit-card
restriction flag is set. -/
theorem signData_optional_fields (o : Order) (nonce ip v : String) :
    (("time_start", v) ∈ signData o nonce ip ↔
      o.StartedAt.isZero = false ∧ v = o.StartedAt.format) ∧
    (("time_expire", v) ∈ signData o nonce ip ↔
      o.ExpiredAt.isZero = false ∧ v = o.ExpiredAt.format) ∧
    (("attach", v) ∈ signData o nonce ip ↔ o.Attach ≠ "" ∧ v = o.Attach) ∧
    (("detail", v) ∈ signData o nonce ip ↔ o.Detail ≠ "" ∧ v = o.Detail) ∧
    (("goods_tag", v) ∈ signData o nonce ip ↔ o.Tag ≠ "" ∧ v = o.Tag) ∧
    (("limit_pay", v) ∈ signData o nonce ip ↔
      o.NoCredit = true ∧ v = "no_credit") := by
  refine ⟨?_, ?_, ?_, ?_, ?_, ?_⟩ <;>
    simp [signData, mem_ite_nil_right, mem_ite_nil_left, Bool.not_eq_true]

/-! ### Claim C8: IP resolution during assembly -/

/-- C8: the IP resolver's outcome matters exactly when the intent's IP is
empty; a resolver failure aborts `prepare` with that error and an empty
`Sign` field, while on success (or a caller-supplied IP) the resolved IP
enters the signed field set as `spbill_create_ip` and the order is
signed. -/
theorem prepare_ip_resolution (o : Order) (key nonce : String)
    (fip : Except String String) :
    (o.IP = "" → ∀ e, fip = Except.error e →
      (o.prepare key nonce fip).2 = some e ∧
      (o.prepare key nonce fip).1.Sign = "") ∧
    (o.IP = "" → ∀ ip, fip = Except.ok ip →
      (o.prepare key nonce fip).2 = none ∧
      (o.prepare key nonce fip).1.Sign = SignByMD5 (signData o nonce ip) key ∧
      ("spbill_create_ip", ip) ∈ signData o nonce ip) ∧
    (o.IP ≠ "" →
      (∀ fip2, o.prepare key nonce fip = o.prepare key nonce fip2) ∧
      (o.prepare key nonce fip).2 = none ∧
      (o.prepare key nonce fip).1.Sign = SignByMD5 (signData o nonce o.IP) key ∧
      ("spbill_create_ip", o.IP) ∈ signData o nonce o.IP) := by
  refine ⟨fun h1 e he => ?_, fun h1 ip hip => ?_, fun h1 => ⟨fun fip2 => ?_, ?_, ?_, ?_⟩⟩ <;>
    simp [Order.prepare, signData, h1, *]

/-- C8 witness: the theorem applied to a concrete order with an empty IP
and a failing resolver, then a succeeding resolver, then a concrete order
with a caller-supplied IP. -/
theorem prepare_ip_resolution_witness :
    ((Order.mk "a" "m" 1 "u" "o" "b" "t" "" false GoTime.zero GoTime.zero
        "" "" "").prepare "k" "n" (Except.error "down")).2 = some "down" ∧
    ((Order.mk "a" "m" 1 "u" "o" "b" "t" "" false GoTime.zero GoTime.zero
        "" "" "").prepare "k" "n" (Except.error "down")).1.Sign = "" ∧
    ((Order.mk "a" "m" 1 "u" "o" "b" "t" "" false GoTime.zero GoTime.zero
        "" "" "").prepare "k" "n" (Except.ok "1.2.3.4")).1.Sign =
      SignByMD5 (signData (Order.mk "a" "m" 1 "u" "o" "b" "t" "" false
        GoTime.zero GoTime.zero "" "" "") "n" "1.2.3.4") "k" ∧
    ((Order.mk "a" "m" 1 "u" "o" "b" "t" "9.9.9.9" false GoTime.zero
        GoTime.zero "" "" "").prepare "k" "n" (Except.error "down")).2 =
      none := by
  refine ⟨?_, ?_, ?_, ?_⟩
  · exact ((prepare_ip_resolution _ "k" "n" _).1 rfl "down" rfl).1
  · exact ((prepare_ip_resolution _ "k" "n" _).1 rfl "down" rfl).2
  · exact ((prepare_ip_resolution _ "k" "n" _).2.1 rfl "1.2.3.4" rfl).2.1
  · exact ((prepare_ip_resolution _ "k" "n" _).2.2 (by decide)).2.1

/-! ### Claim C1: signature is invariant under field ordering -/

/-- Two mappings holding the same pairs sort to the same field list when
no field name repeats. -/
theorem sortFields_eq_of_perm (l1 l2 : List (String × String))
    (hnd : (l1.map Prod.fst).Nodup) (hp : l1.Perm l2) :
    sortFields l1 = sortFields l2 := by
  haveI hTot : IsTotal (String × String) fun a b => a.1 ≤ b.1 :=
    ⟨fun a b => le_total a.1 b.1⟩
  haveI hTrans : IsTrans (String × String) fun a b => a.1 ≤ b.1 :=
    ⟨fun _ _ _ h1 h2 => le_trans h1 h2⟩
  haveI hAnti : IsAntisymm (String × String) fun a b => a.1 < b.1 :=
    ⟨fun _ _ h1 h2 => absurd h2 (lt_asymm h1)⟩
  have sorted_lt : ∀ l : List (String × String), (l.map Prod.fst).Nodup →
      (sortFields l).Pairwise fun a b => a.1 < b.1 := by
    intro l hl
    have hs := List.sorted_insertionSort (fun a b : String × String => a.1 ≤ b.1) l
    have hperm := List.perm_insertionSort (fun a b : String × String => a.1 ≤ b.1) l
    have hnd2 : ((sortFields l).map Prod.fst).Nodup :=
      ((hperm.map Prod.fst).symm.nodup_iff).mp hl
    have hne : (sortFields l).Pairwise fun a b => a.1 ≠ b.1 :=
      (List.pairwise_map).mp hnd2
    exact (hs.and hne).imp fun h => lt_of_le_of_ne h.1 h.2
  have hnd2 : (l2.map Prod.fst).Nodup := (hp.map Prod.fst).nodup hnd
  have hperm12 : (sortFields l1).Perm (sortFields l2) :=
    ((List.perm_insertionSort _ l1).trans hp).trans
      (List.perm_insertionSort _ l2).symm
  exact List.eq_of_perm_of_sorted hperm12 (sorted_lt l1 hnd) (sorted_lt l2 hnd2)

/-- C1: the signature is the uppercase-hexadecimal MD5 of the canonical
string built from the sorted, empty-value-free field list with the secret
key appended, so two mappings holding the same key/value pairs in
different insertion orders sign identically. -/
theorem signByMD5_order_invariant (l1 l2 : List (String × String))
    (key : String) (hnd : (l1.map Prod.fst).Nodup) (hp : l1.Perm l2) :
    SignByMD5 l1 key = md5HexUpper (canonicalString l1 key) ∧
    SignByMD5 l1 key = SignByMD5 l2 key := by
  refine ⟨rfl, ?_⟩
  unfold SignByMD5 canonicalString
  rw [sortFields_eq_of_perm l1 l2 hnd hp]

/-- C1 witness: the theorem applied to two concrete mappings holding the
same pairs in different orders. -/
theorem signByMD5_order_invariant_witness :
    SignByMD5 [("b", "2"), ("a", "1"), ("c", "")] "k" =
      md5HexUpper (canonicalString [("b", "2"), ("a", "1"), ("c", "")] "k") ∧
    SignByMD5 [("b", "2"), ("a", "1"), ("c", "")] "k" =
      SignByMD5 [("c", ""), ("a", "1"), ("b", "2")] "k" :=
  signByMD5_order_invariant [("b", "2"), ("a", "1"), ("c", "")]
    [("c", ""), ("a", "1"), ("b", "2")] "k" (by decide) (by decide)

/-! ### Claims C5, C6, C10: coupon extraction -/

/-- The coupon line item the callback's indexed elements describe at
index `i`. -/
def couponAt (doc : XmlDoc) (i : Nat) : CouponResponseModel :=
  { CouponId := (selectText doc ("coupon_id_" ++ toString i)).getD "",
    CouponFee :=
      (goParseInt64 ((selectText doc ("coupon_fee_" ++ toString i)).getD "")).1 }

theorem newCouponResponseModel_of_present (doc : XmlDoc) (i : Nat)
    (h1 : (selectText doc ("coupon_id_" ++ toString i)).isSome)
    (h2 : (selectText doc ("coupon_fee_" ++ toString i)).isSome) :
    NewCouponResponseModel doc i = some (couponAt doc i) := by
  rcases Option.isSome_iff_exists.mp h1 with ⟨a, ha⟩
  rcases Option.isSome_iff_exists.mp h2 with ⟨b, hb⟩
  simp [NewCouponResponseModel, couponAt, ha, hb]

/-- A crafted callback carrying two coupons. -/
def twoCouponDoc : XmlDoc :=
  [("return_code", "SUCCESS"), ("result_code", "SUCCESS"),
   ("coupon_count", "2"), ("coupon_id_0", "A"), ("coupon_fee_0", "100"),
   ("coupon_id_1", "B"), ("coupon_fee_1", "50")]

/-- The parsed form of `twoCouponDoc`. -/
def twoCouponNotify : paidNotify :=
  ⟨⟨"SUCCESS", "", "SUCCESS", "", ""⟩,
   ⟨"", "", 0, "", "", "", "", "", "", "", "", 2, "", "", "", "", "",
    [⟨"A", 100⟩, ⟨"B", 50⟩]⟩⟩

/-- The parsed form of an empty callback body. -/
def emptyNotify : paidNotify :=
  ⟨⟨"", "", "", "", ""⟩,
   ⟨"", "", 0, "", "", "", "", "", "", "", "", 0, "", "", "", "", "", []⟩⟩

/-- C5: when every indexed element up to the declared count is present,
extraction yields exactly one item per index, in index order, pairing the
`coupon_id_i` text with the parsed `coupon_fee_i` value; the crafted
two-coupon callback parses to `[(A,100),(B,50)]`; and a zero declared
count leaves the coupon list empty. -/
theorem coupon_extraction_spec :
    (∀ (doc : XmlDoc) (N : Nat),
      (∀ i, i < N → (selectText doc ("coupon_id_" ++ toString i)).isSome ∧
        (selectText doc ("coupon_fee_" ++ toString i)).isSome) →
      extractCoupons doc N = some ((List.range N).map (couponAt doc))) ∧
    (∃ pn, buildNotify twoCouponDoc = GoResult.ok pn ∧
      pn.ntf.Coupons = [⟨"A", 100⟩, ⟨"B", 50⟩]) ∧
    (∀ (doc : XmlDoc) (pn : paidNotify),
      unmarshalPaidNotify doc = Except.ok pn → pn.ntf.CouponCount = 0 →
      buildNotify doc = GoResult.ok pn ∧ pn.ntf.Coupons = []) := by
  refine ⟨fun doc N => ?_, ⟨twoCouponNotify, rfl, rfl⟩, fun doc pn hok hcc => ?_⟩
  · induction N with
    | zero => intro _; rfl
    | succ n ih =>
      intro h
      have hn := ih fun i hi => h i (Nat.lt_succ_of_lt hi)
      have hm := newCouponResponseModel_of_present doc n
        (h n (Nat.lt_succ_self n)).1 (h n (Nat.lt_succ_self n)).2
      simp [extractCoupons, hn, hm, List.range_succ]
  · have hcoup : pn.ntf.Coupons = [] := by
      cases h1 : intField doc "total_fee" with
      | error e => simp [unmarshalPaidNotify, h1, Bind.bind, Except.bind] at hok
      | ok tf =>
        cases h2 : intField doc "coupon_count" with
        | error e =>
          simp [unmarshalPaidNotify, h1, h2, Bind.bind, Except.bind] at hok
        | ok cc =>
          simp [unmarshalPaidNotify, h1, h2, Bind.bind, Except.bind] at hok
          subst hok
          simp
    refine ⟨?_, hcoup⟩
    simp [buildNotify, hok, hcc]

/-- C5 witness: the general extraction formula applied to the crafted
two-coupon callback, and the zero-count case applied to an empty body. -/
theorem coupon_extraction_spec_witness :
    extractCoupons twoCouponDoc 2 =
      some ((List.range 2).map (couponAt twoCouponDoc)) ∧
    buildNotify [] = GoResult.ok emptyNotify :=
  ⟨coupon_extraction_spec.1 twoCouponDoc 2 (by decide),
   (coupon_extraction_spec.2.2 [] emptyNotify rfl rfl).1⟩

/-- The decision function that acknowledges every notification. -/
def ackAll : PaidNotify → Bool × String := fun _ => (true, "")

/-- A callback declaring one coupon but carrying no `coupon_id_0` /
`coupon_fee_0` elements. -/
def missingCouponDoc : XmlDoc :=
  [("return_code", "SUCCESS"), ("result_code", "SUCCESS"),
   ("coupon_count", "1")]

/-- C6: on a callback whose declared coupon count exceeds the indexed
elements present, the dereference of the absent element makes the handler
panic (Go nil-pointer dereference) instead of returning an error: the
run neither produces an acknowledgement nor returns any error value. -/
theorem handle_missing_coupon_panics :
    NewCouponResponseModel missingCouponDoc 0 = none ∧
    HandlePaidNotify missingCouponDoc ackAll = GoResult.panic ∧
    ∀ e, HandlePaidNotify missingCouponDoc ackAll ≠ GoResult.error e := by
  refine ⟨by decide, by decide, fun e h => ?_⟩
  rw [show HandlePaidNotify missingCouponDoc ackAll = GoResult.panic
    from by decide] at h
  exact GoResult.noConfusion h

/-! ### Claim C10: discarded coupon-fee parse errors -/

theorem decDigitsVal_eq_none (cs : List Char)
    (h : cs.all Char.isDigit = false) : ∀ acc, decDigitsVal acc cs = none := by
  induction cs with
  | nil => simp at h
  | cons c cs ih =>
    intro acc
    by_cases hc : c.isDigit
    · simp only [List.all_cons, hc, Bool.true_and] at h
      simp [decDigitsVal, hc, ih h]
    · simp [decDigitsVal, hc]

theorem goParseInt64_of_not_lit (s : String) (h : isDecIntLit s = false) :
    goParseInt64 s = (0, false) := by
  unfold isDecIntLit at h
  unfold goParseInt64
  rcases hsp : splitSign s.toList with ⟨neg, ds⟩
  rw [hsp] at h
  cases ds with
  | nil => simp [decDigits]
  | cons c cs =>
    have hall : (c :: cs).all Char.isDigit = false := by
      simpa using h
    simp [decDigits, decDigitsVal_eq_none _ hall]

/-- A callback whose single coupon has an unparseable fee text. -/
def badFeeDoc : XmlDoc :=
  [("return_code", "SUCCESS"), ("result_code", "SUCCESS"),
   ("coupon_count", "1"), ("coupon_id_0", "A"), ("coupon_fee_0", "12x")]

/-- C10: when the fee element's text is not a syntactically valid decimal
integer literal, the item is still produced with fee 0 and no error is
surfaced; on a full callback the handler proceeds to a SUCCESS
acknowledgement. -/
theorem coupon_fee_error_discarded :
    (∀ (doc : XmlDoc) (i : Nat) (idT feeT : String),
      selectText doc ("coupon_id_" ++ toString i) = some idT →
      selectText doc ("coupon_fee_" ++ toString i) = some feeT →
      isDecIntLit feeT = false →
      NewCouponResponseModel doc i = some ⟨idT, 0⟩) ∧
    (∃ pn, buildNotify badFeeDoc = GoResult.ok pn ∧
      pn.ntf.Coupons = [⟨"A", 0⟩]) ∧
    HandlePaidNotify badFeeDoc ackAll = GoResult.ok ⟨"SUCCESS", ""⟩ := by
  refine ⟨fun doc i idT feeT hid hfee hbad => ?_,
    ⟨⟨⟨"SUCCESS", "", "SUCCESS", "", ""⟩,
      ⟨"", "", 0, "", "", "", "", "", "", "", "", 1, "", "", "", "", "",
       [⟨"A", 0⟩]⟩⟩, rfl, rfl⟩, by decide⟩
  simp [NewCouponResponseModel, hid, hfee, goParseInt64_of_not_lit feeT hbad]

/-- C10 witness: the general statement applied at the crafted callback's
index 0, whose fee text `12x` is not an integer literal. -/
theorem coupon_fee_error_discarded_witness :
    NewCouponResponseModel badFeeDoc 0 = some ⟨"A", 0⟩ :=
  coupon_fee_error_discarded.1 badFeeDoc 0 "A" "12x" rfl rfl (by decide)

/-! ### Claim C9: check failure precedes the decision function -/

/-- A callback failing the transport tier that also declares a coupon it
does not carry. -/
def failingCouponDoc : XmlDoc :=
  [("return_code", "FAIL"), ("coupon_count", "1")]

/-- The decision function used in the C9 counterexample run. -/
def ackAllMsg : PaidNotify → Bool × String := fun _ => (true, "seen")

/-- C9 counterexample: a notification whose envelope fails the status
check but whose declared coupon is missing makes the handler panic during
coupon extraction, so it does not return the check error. -/
theorem handle_check_failure_counterexample :
    strField failingCouponDoc "return_code" ≠ "SUCCESS" ∧
    HandlePaidNotify failingCouponDoc ackAllMsg = GoResult.panic ∧
    ∀ e, HandlePaidNotify failingCouponDoc ackAllMsg ≠ GoResult.error e := by
  refine ⟨by decide, by decide, fun e h => ?_⟩
  rw [show HandlePaidNotify failingCouponDoc ackAllMsg = GoResult.panic
    from by decide] at h
  exact GoResult.noConfusion h

/-- C9 (amended): for every notification whose deserialization and coupon
extraction complete and whose envelope fails the two-layer status check,
the handler returns that error, for every decision function alike — the
decision function is never invoked and no SUCCESS acknowledgement is
produced. -/
theorem handle_check_failure (doc : XmlDoc) (pn : paidNotify) (e : String)
    (hb : buildNotify doc = GoResult.ok pn)
    (hc : pn.resp.Check = some e) :
    ∀ f, HandlePaidNotify doc f = GoResult.error e := by
  intro f
  simp [HandlePaidNotify, hb, hc]

/-- The parsed form of a bare transport-failure callback. -/
def failNotify : paidNotify :=
  ⟨⟨"FAIL", "", "", "", ""⟩,
   ⟨"", "", 0, "", "", "", "", "", "", "", "", 0, "", "", "", "", "", []⟩⟩

/-- C9 witness: the amended theorem applied to a concrete failing
callback and two different decision functions. -/
theorem handle_check_failure_witness :
    HandlePaidNotify [("return_code", "FAIL")] ackAllMsg =
      GoResult.error "交易失败: " ∧
    HandlePaidNotify [("return_code", "FAIL")] (fun _ => (false, "no")) =
      GoResult.error "交易失败: " :=
  ⟨handle_check_failure [("return_code", "FAIL")] failNotify "交易失败: "
     rfl rfl ackAllMsg,
   handle_check_failure [("return_code", "FAIL")] failNotify "交易失败: "
     rfl rfl (fun _ => (false, "no"))⟩

/-! ### Claim C4: the handler never verifies the inbound signature -/

theorem selectText_setSign_ne (doc : XmlDoc) (v name : String)
    (h : name ≠ "sign") :
    selectText (setSign doc v) name = selectText doc name := by
  induction doc with
  | nil => rfl
  | cons p rest ih =>
    obtain ⟨k, x⟩ := p
    by_cases hk : k = "sign"
    · have hkn : (name == k) = false :=
        beq_eq_false_iff_ne.mpr fun he => h (hk ▸ he)
      simp only [setSign, List.map_cons, if_pos hk]
      simpa [selectText, setSign, List.lookup, hkn] using ih
    · simp only [setSign, List.map_cons, if_neg hk]
      cases hbe : name == k
      · simpa [selectText, setSign, List.lookup, hbe] using ih
      · simp [selectText, List.lookup, hbe]

theorem strField_setSign_ne (doc : XmlDoc) (v name : String)
    (h : name ≠ "sign") :
    strField (setSign doc v) name = strField doc name := by
  simp [strField, selectText_setSign_ne doc v name h]

theorem intField_setSign_ne (doc : XmlDoc) (v name : String)
    (h : name ≠ "sign") :
    intField (setSign doc v) name = intField doc name := by
  simp [intField, selectText_setSign_ne doc v name h]

theorem couponId_ne_sign (i : Nat) : ("coupon_id_" ++ toString i) ≠ "sign" := by
  intro h
  have hlen := congrArg String.length h
  rw [String.length_append] at hlen
  have h1 : "coupon_id_".length = 10 := rfl
  have h2 : "sign".length = 4 := rfl
  omega

theorem couponFee_ne_sign (i : Nat) :
    ("coupon_fee_" ++ toString i) ≠ "sign" := by
  intro h
  have hlen := congrArg String.length h
  rw [String.length_append] at hlen
  have h1 : "coupon_fee_".length = 11 := rfl
  have h2 : "sign".length = 4 := rfl
  omega

theorem newCouponResponseModel_setSign (doc : XmlDoc) (v : String) (i : Nat) :
    NewCouponResponseModel (setSign doc v) i = NewCouponResponseModel doc i := by
  unfold NewCouponResponseModel
  rw [selectText_setSign_ne doc v _ (couponId_ne_sign i),
    selectText_setSign_ne doc v _ (couponFee_ne_sign i)]

theorem extractCoupons_setSign (doc : XmlDoc) (v : String) (n : Nat) :
    extractCoupons (setSign doc v) n = extractCoupons doc n := by
  induction n with
  | zero => rfl
  | succ n ih => simp [extractCoupons, ih, newCouponResponseModel_setSign]

theorem unmarshal_setSign (doc : XmlDoc) (v : String) :
    unmarshalPaidNotify (setSign doc v) =
      (unmarshalPaidNotify doc).map fun pn =>
        ⟨pn.resp, { pn.ntf with Sign := strField (setSign doc v) "sign" }⟩ := by
  unfold unmarshalPaidNotify
  rw [intField_setSign_ne doc v "total_fee" (by decide),
    intField_setSign_ne doc v "coupon_count" (by decide)]
  cases intField doc "total_fee" with
  | error e => rfl
  | ok tf =>
    cases intField doc "coupon_count" with
    | error e => rfl
    | ok cc =>
      simp only [Bind.bind, Except.bind, Except.map]
      rw [strField_setSign_ne doc v "return_code" (by decide),
        strField_setSign_ne doc v "return_msg" (by decide),
        strField_setSign_ne doc v "result_code" (by decide),
        strField_setSign_ne doc v "err_code" (by decide),
        strField_setSign_ne doc v "err_code_des" (by decide),
        strField_setSign_ne doc v "appid" (by decide),
        strField_setSign_ne doc v "mch_id" (by decide),
        strField_setSign_ne doc v "nonce_str" (by decide),
        strField_setSign_ne doc v "sign_type" (by decide),
        strField_setSign_ne doc v "openid" (by decide),
        strField_setSign_ne doc v "trade_type" (by decide),
        strField_setSign_ne doc v "bank_type" (by decide),
        strField_setSign_ne doc v "fee_type" (by decide),
        strField_setSign_ne doc v "cash_fee_type" (by decide),
        strField_setSign_ne doc v "transaction_id" (by decide),
        strField_setSign_ne doc v "attach" (by decide),
        strField_setSign_ne doc v "is_subscribe" (by decide),
        strField_setSign_ne doc v "out_trade_no" (by decide),
        strField_setSign_ne doc v "time_end" (by decide)]

theorem buildNotify_setSign (doc : XmlDoc) (v : String) :
    buildNotify (setSign doc v) =
      match buildNotify doc with
      | GoResult.ok pn =>
          GoResult.ok
            ⟨pn.resp, { pn.ntf with Sign := strField (setSign doc v) "sign" }⟩
      | GoResult.error e => GoResult.error e
      | GoResult.panic => GoResult.panic := by
  unfold buildNotify
  rw [unmarshal_setSign]
  cases unmarshalPaidNotify doc with
  | error e => rfl
  | ok pn =>
    simp only [Except.map]
    by_cases hc : pn.ntf.CouponCount > 0
    · simp only [hc, if_pos, extractCoupons_setSign]
      cases extractCoupons doc pn.ntf.CouponCount.toNat <;> rfl
    · simp [hc]

/-- C4 (amended): rewriting the `sign` element of a callback never changes
the handler's behaviour beyond what the caller's decision function itself
reads out of the `Sign` field: the handler performs no signature
verification of its own (it is not even given the secret key), so for any
decision function insensitive to `Sign` the two runs produce identical
acknowledgements. -/
theorem handle_sign_not_verified (doc : XmlDoc) (v : String)
    (f : PaidNotify → Bool × String)
    (hf : ∀ n s, f { n with Sign := s } = f n) :
    HandlePaidNotify (setSign doc v) f = HandlePaidNotify doc f := by
  unfold HandlePaidNotify
  rw [buildNotify_setSign]
  cases buildNotify doc with
  | panic => rfl
  | error e => rfl
  | ok pn => simp [hf]

/-- A minimal successful callback carrying `sign=X`. -/
def signedDoc : XmlDoc :=
  [("return_code", "SUCCESS"), ("result_code", "SUCCESS"), ("sign", "X")]

/-- A decision function that inspects the notification's `Sign` field. -/
def signProbe : PaidNotify → Bool × String := fun n => (n.Sign == "X", "")

/-- C4 counterexample: two callbacks that differ only in the `sign` value
run under the same decision function, yet produce different
acknowledgements, because the handler hands the unverified `Sign` field
through to the caller's decision function. -/
theorem handle_sign_sensitivity_counterexample :
    setSign signedDoc "Y" =
      [("return_code", "SUCCESS"), ("result_code", "SUCCESS"),
       ("sign", "Y")] ∧
    HandlePaidNotify signedDoc signProbe ≠
      HandlePaidNotify (setSign signedDoc "Y") signProbe := by
  exact ⟨by decide, by decide⟩

/-- C4 witness: the amended theorem applied to the concrete signed
callback and a sign-insensitive decision function. -/
theorem handle_sign_not_verified_witness :
    HandlePaidNotify (setSign signedDoc "Y") ackAllMsg =
      HandlePaidNotify signedDoc ackAllMsg :=
  handle_sign_not_verified signedDoc "Y" ackAllMsg fun _ _ => rfl

end WxPay
